import Mathlib

/-!
Verification of the image-captioning script (`imagecaption_generator_aiml.py`).

The script's numeric tensors are modelled shallowly: token sequences are
`List Nat`, float tensors are `List Rat` (nested for higher rank), masks are
`List Bool` or 0/1 `Nat` tensors.  IEEE-float division by a zero denominator
(which yields NaN/inf rather than raising) is modelled by returning `none`
from an `Option`-valued division, so that an undefined (NaN) result is
distinguishable from a real number.
-/

namespace ImageCaption

/-- `sequence_length = 25` — fixed length allowed for any sequence. -/
def sequence_length : Nat := 25

/-- `SEQ_LENGTH` as used by the second half of the script; the spec collapses
the two halves into one design with the same sequence length. -/
def SEQ_LENGTH : Nat := sequence_length

/-- Float division as performed by the script: a zero denominator gives NaN
(for a 0 numerator) or inf, neither a real number; modelled as `none`. -/
def fdiv (a b : Rat) : Option Rat :=
  if b = 0 then none else some (a / b)

/-!
## Learning-rate schedule (`LRSchedule.__call__`, lines 529–544)

```python
def __call__(self, step):
    global_step = tf.cast(step, tf.float32)
    warmup_steps = tf.cast(self.warmup_steps, tf.float32)
    warmup_progress = global_step / warmup_steps
    warmup_learning_rate = self.post_warmup_learning_rate * warmup_progress
    return tf.cond(global_step < warmup_steps,
                   lambda: warmup_learning_rate,
                   lambda: self.post_warmup_learning_rate)
```

`tf.cond` returns the value of exactly one branch, so the returned value is
`post * (step / warmup)` when `step < warmup` and `post` otherwise.  The
eagerly computed quotient `step / warmup` influences the result only inside
the selected branch, so it is modelled at its use site; with
`warmup_steps = 0` the condition `step < 0` is false for every step,
the quotient is never returned, and no error is raised (float division by
zero yields inf/NaN, not an exception).
-/

/-- `LRSchedule.__call__` as the value it returns. -/
def LRSchedule_call (post_warmup_learning_rate : Rat) (warmup_steps : Nat)
    (step : Nat) : Rat :=
  let global_step : Rat := step
  let w : Rat := warmup_steps
  if global_step < w then post_warmup_learning_rate * (global_step / w)
  else post_warmup_learning_rate

/-!
## Masked loss and accuracy (`ImageCaptioningModel`, lines 363–374)

```python
def calculate_loss(self, y_true, y_pred, mask):
    loss = self.loss(y_true, y_pred)
    mask = tf.cast(mask, dtype=loss.dtype)
    loss *= mask
    return tf.reduce_sum(loss) / tf.reduce_sum(mask)
```

`self.loss` is the compiled `SparseCategoricalCrossentropy(reduction="none")`
collaborator producing one cross-entropy value per position; it is passed in
as the function `lossFn`.  The final division is float division, hence `fdiv`.
-/

/-- Cast of a boolean mask to 0/1 numbers (`tf.cast(mask, float)`). -/
def maskCast (mask : List Bool) : List Rat :=
  mask.map (fun m => if m then 1 else 0)

/-- `ImageCaptioningModel.calculate_loss`. -/
def calculate_loss (lossFn : List Nat → List (List Rat) → List Rat)
    (y_true : List Nat) (y_pred : List (List Rat)) (mask : List Bool) :
    Option Rat :=
  let loss := lossFn y_true y_pred
  let loss := List.zipWith (fun l m => l * m) loss (maskCast mask)
  fdiv loss.sum (maskCast mask).sum

/-- First index of the maximum entry (`np.argmax` / `tf.argmax` tie-breaking),
auxiliary recursion carrying the current best index and value. -/
def argmaxAux : List Rat → Nat → Nat → Rat → Nat
  | [], _, best, _ => best
  | x :: xs, i, best, bv =>
      if bv < x then argmaxAux xs (i + 1) i x else argmaxAux xs (i + 1) best bv

/-- `tf.argmax` over one distribution (first maximal index; 0 on empty). -/
def argmax : List Rat → Nat
  | [] => 0
  | x :: xs => argmaxAux xs 1 0 x

/-- `ImageCaptioningModel.calculate_accuracy`:

```python
accuracy = tf.equal(y_true, tf.argmax(y_pred, axis=2))
accuracy = tf.math.logical_and(mask, accuracy)
accuracy = tf.cast(accuracy, dtype=tf.float32)
mask = tf.cast(mask, dtype=tf.float32)
return tf.reduce_sum(accuracy) / tf.reduce_sum(mask)
``` -/
def calculate_accuracy (y_true : List Nat) (y_pred : List (List Rat))
    (mask : List Bool) : Option Rat :=
  let accuracy := List.zipWith (fun t p => t == argmax p) y_true y_pred
  let accuracy := List.zipWith (fun m a => m && a) mask accuracy
  fdiv (maskCast accuracy).sum (maskCast mask).sum

/-!
## Causal attention mask (`DecoderClass.get_causal_attention_mask`, lines 337–348)

```python
def get_causal_attention_mask(self, inputs):
    input_shape = tf.shape(inputs)
    batch_size, sequence_length = input_shape[0], input_shape[1]
    i = tf.range(sequence_length)[:, tf.newaxis]
    j = tf.range(sequence_length)
    mask = tf.cast(i >= j, dtype="int32")
    mask = tf.reshape(mask, (1, input_shape[1], input_shape[1]))
    mult = tf.concat([tf.expand_dims(batch_size, -1),
                      tf.constant([1, 1], dtype=tf.int32)], axis=0)
    return tf.tile(mask, mult)
```

Rank-3 int tensors are nested lists; `tf.reshape` to `(1, L, L)` followed by
`tf.tile` with multiples `(B, 1, 1)` produces `B` copies of the `(L, L)`
lower-triangular slice. -/
def get_causal_attention_mask (batch_size seqLen : Nat) :
    List (List (List Nat)) :=
  let mask :=
    (List.range seqLen).map (fun i =>
      (List.range seqLen).map (fun j => if i ≥ j then 1 else 0))
  List.replicate batch_size mask

/-!
## Decoder mask handling (`DecoderClass.call`, lines 302–317; identical in
`TransformerDecoderBlock.call`, lines 728–743)

```python
def call(self, inputs, encoder_outputs, training, mask=None):
    inputs = self.embedding(inputs)
    causal_mask = self.get_causal_attention_mask(inputs)
    if mask is not None:
        padding_mask = tf.cast(mask[:, :, tf.newaxis], dtype=tf.int32)
        combined_mask = tf.cast(mask[:, tf.newaxis, :], dtype=tf.int32)
        combined_mask = tf.minimum(combined_mask, causal_mask)
    attention_output_1 = self.attention_1(..., attention_mask=combined_mask, ...)
    ...
    attention_output_2 = self.attention_2(..., attention_mask=padding_mask, ...)
```

`combined_mask` and `padding_mask` are assigned only inside the
`if mask is not None` branch, yet both names are read unconditionally when
building the two attention calls.  In Python a name assigned anywhere in a
function body is local to it, so when `mask` is `None` the read of
`combined_mask` raises `UnboundLocalError` before any attention runs.  The
function below computes the two attention-mask arguments the forward pass
passes to its attention layers, or the error the forward pass raises. -/
def decoder_call_masks (batch_size seqLen : Nat)
    (mask : Option (List (List Bool))) :
    Except String (List (List (List Nat)) × List (List (List Nat))) :=
  let causal_mask := get_causal_attention_mask batch_size seqLen
  match mask with
  | some m =>
      -- mask[:, :, tf.newaxis] cast to int: shape (B, L, 1)
      let padding_mask := m.map (fun row => row.map (fun b => [if b then 1 else 0]))
      -- tf.minimum of mask[:, tf.newaxis, :] (B, 1, L) with causal (B, L, L)
      -- broadcasts to (B, L, L): entry (b, i, j) = min(mask[b][j], causal[i][j])
      let combined_mask :=
        (List.range batch_size).map (fun b =>
          (List.range seqLen).map (fun i =>
            (List.range seqLen).map (fun j =>
              min (if (m.getD b []).getD j false then 1 else 0)
                  (((causal_mask.getD b []).getD i []).getD j 0))))
      Except.ok (combined_mask, padding_mask)
  | none =>
      Except.error
        "UnboundLocalError: local variable combined_mask referenced before assignment"

/-!
## Python string helpers

`map_image_caption` uses `str.strip`, `str.split(sep)`, `str.split()` (on
whitespace runs), `str.endswith`; these are translated over `List Char`.
-/

/-- Drop leading and trailing characters satisfying `p`
(Python `str.strip` family). -/
def stripWhile (p : Char → Bool) (s : List Char) : List Char :=
  ((s.dropWhile p).reverse.dropWhile p).reverse

/-- Auxiliary recursion for `splitChar`. -/
def splitCharAux (c : Char) : List Char → List Char → List (List Char)
  | [], acc => [acc.reverse]
  | x :: xs, acc =>
      if x = c then acc.reverse :: splitCharAux c xs []
      else splitCharAux c xs (x :: acc)

/-- Python `s.split(sep)` for a one-character separator: splits at every
occurrence, keeping empty fields. -/
def splitChar (c : Char) (s : List Char) : List (List Char) :=
  splitCharAux c s []

/-- Python `s.split()` with no argument: split on whitespace runs,
discarding empty fields. -/
def splitWs (s : List Char) : List (List Char) :=
  (splitCharAux ' ' (s.map (fun c => if c.isWhitespace then ' ' else c)) []).filter
    (fun w => ¬ w.isEmpty)

/-- Python `s.strip()` on a `String`. -/
def pyStrip (s : String) : String :=
  String.mk (stripWhile Char.isWhitespace s.toList)

/-!
## Caption-file parsing (`map_image_caption`, lines 43–83)

```python
for c_data in caption_data:
    image_name, caption = c_data.strip("\n").split("\t")
    caption = caption.strip()
    image_name = os.path.join('Flicker8k_Dataset', image_name.split("#")[0].strip())
    tokens = caption.strip().split()
    if len(tokens) < 5 or len(tokens) > sequence_length:
        skip_these_images.add(image_name)
        continue
    if image_name.endswith("jpg") and image_name not in skip_these_images:
        text_data.append("<start> " + caption + " <end>")
        if image_name in mapped_captions:
            mapped_captions[image_name].append(caption)
        else:
            mapped_captions[image_name] = [caption]
for image_name in skip_these_images:
    if image_name in mapped_captions:
        del mapped_captions[image_name]
return mapped_captions, text_data
```

The insertion-ordered dict `mapped_captions` is an association list with
unique keys; the set `skip_these_images` is a duplicate-free list (iteration
order is irrelevant here because the final loop deletes every member).
Unpacking `split("\t")` into two variables raises `ValueError` unless the
split yields exactly two fields, hence the `Except`. -/

/-- Dict write `mapped_captions[k].append(v)` / `mapped_captions[k] = [v]`. -/
def mapAppend (m : List (String × List String)) (k : String) (v : String) :
    List (String × List String) :=
  if m.any (fun p => p.1 = k) then
    m.map (fun p => if p.1 = k then (p.1, p.2 ++ [v]) else p)
  else m ++ [(k, [v])]

/-- Set insert `skip_these_images.add(name)`. -/
def addSkip (skip : List String) (k : String) : List String :=
  if skip.contains k then skip else skip ++ [k]

/-- The per-line loop of `map_image_caption`, carrying
(`mapped_captions`, `text_data`, `skip_these_images`); on exhaustion it
performs the deletion loop and returns. -/
def micGo : List String → List (String × List String) → List String →
    List String → Except String (List (String × List String) × List String)
  | [], mapped_captions, text_data, skip_these_images =>
      Except.ok
        (mapped_captions.filter (fun p => ¬ skip_these_images.contains p.1),
         text_data)
  | c_data :: rest, mapped_captions, text_data, skip_these_images =>
      match splitChar '\t' (stripWhile (fun c => c = '\n') c_data.toList) with
      | [nameField, capField] =>
          let caption := String.mk (stripWhile Char.isWhitespace capField)
          let image_name := "Flicker8k_Dataset/" ++
            String.mk (stripWhile Char.isWhitespace
              ((splitChar '#' nameField).headD []))
          let tokens := splitWs (pyStrip caption).toList
          if tokens.length < 5 ∨ tokens.length > sequence_length then
            micGo rest mapped_captions text_data
              (addSkip skip_these_images image_name)
          else if "jpg".toList.isSuffixOf image_name.toList ∧
              ¬ skip_these_images.contains image_name then
            micGo rest (mapAppend mapped_captions image_name caption)
              (text_data ++ ["<start> " ++ caption ++ " <end>"])
              skip_these_images
          else
            micGo rest mapped_captions text_data skip_these_images
      | _ => Except.error "ValueError: caption line does not split into two fields"

/-- `map_image_caption` on the list of lines of the caption file. -/
def map_image_caption (caption_data : List String) :
    Except String (List (String × List String) × List String) :=
  micGo caption_data [] [] []

/-!
## Greedy decoding loops

First definition (`generate_caption`, lines 997–1030): a `for` loop over
`range(max_decoded_sentence_length)` with `max_decoded_sentence_length =
SEQ_LENGTH - 1`; the body samples one token and breaks when it is `"<end>"`.

Second definition (`generate_caption`, lines 1048–1069), which shadows the
first: a `while True` loop that appends one word per iteration and breaks
when the word is `"<end>"` or `len(result) >= SEQ_LENGTH`.

The decoder/argmax/vocabulary pipeline that produces the token of each
iteration is abstracted as an oracle `next : Nat → String` giving the token
sampled at the iteration with that index; the loops' control flow is what
the claims are about.  Each loop is written by structural recursion on the
number of remaining permitted iterations, and returns the number of loop
iterations actually executed.
-/

/-- `max_decoded_sentence_length = SEQ_LENGTH - 1` (line 993). -/
def max_decoded_sentence_length : Nat := SEQ_LENGTH - 1

/-- Iterations of the first greedy loop: `r` iterations of
`for i in range(...)` remain, the current index is `i`; the body always
executes (counted), then breaks if the sampled token is `"<end>"`. -/
def loop1Go (next : Nat → String) (i : Nat) : Nat → Nat
  | 0 => 0
  | r + 1 => if next i = "<end>" then 1 else 1 + loop1Go next (i + 1) r

/-- Number of iterations executed by the first `generate_caption` loop. -/
def generate_caption_iters (next : Nat → String) : Nat :=
  loop1Go next 0 max_decoded_sentence_length

/-- Iterations of the second greedy loop (`while True`): `k = len(result)`
entries so far; the body appends one word, then breaks if the word is
`"<end>"` or `len(result) >= SEQ_LENGTH` (i.e. `k + 1 ≥ SEQ_LENGTH`).
The fuel `r` starts at `SEQ_LENGTH`, which the length break makes
sufficient. -/
def loop2Go (next : Nat → String) (k : Nat) : Nat → Nat
  | 0 => 0
  | r + 1 =>
      if next k = "<end>" ∨ SEQ_LENGTH ≤ k + 1 then 1
      else 1 + loop2Go next (k + 1) r

/-- Number of iterations executed by the second `generate_caption` loop. -/
def generate_caption_v2_iters (next : Nat → String) : Nat :=
  loop2Go next 0 SEQ_LENGTH

/-!
## Training step parameter frame (`train_step`, lines 388–429, and
`prepare_cnn_model`, lines 166–175)

```python
base_model.trainable = False            # prepare_cnn_model
...
for i in range(self.num_captions_per_image):
    with tf.GradientTape() as tape:
        loss, acc = self._compute_caption_loss_and_acc(...)
    train_vars = (self.encoder.trainable_variables
                  + self.decoder.trainable_variables)
    grads = tape.gradient(loss, train_vars)
    self.optimizer.apply_gradients(zip(grads, train_vars))
```

Model parameters are identified by which submodel owns them; the parameter
store maps a variable to its value.  `apply_gradients(zip(grads, train_vars))`
rewrites exactly the variables in `train_vars`; the optimizer's update rule
(gradient, momentum, learning rate) is an arbitrary per-variable function. -/

/-- A trainable variable of one of the three submodels, identified by owner
and index. -/
inductive ModelVar where
  | cnn : Nat → ModelVar
  | enc : Nat → ModelVar
  | dec : Nat → ModelVar
deriving DecidableEq

/-- `base_model.trainable = False` in `prepare_cnn_model`: the CNN feature
extractor is frozen. -/
def cnn_model_trainable : Bool := false

/-- `train_vars = encoder.trainable_variables + decoder.trainable_variables`
for an encoder with `nEnc` and a decoder with `nDec` trainable variables. -/
def train_vars (nEnc nDec : Nat) : List ModelVar :=
  (List.range nEnc).map ModelVar.enc ++ (List.range nDec).map ModelVar.dec

/-- `optimizer.apply_gradients(zip(grads, tvs))`: each variable in `tvs` is
rewritten by the optimizer's update `upd`; every other variable keeps its
value. -/
def apply_gradients (upd : ModelVar → Rat → Rat) (tvs : List ModelVar)
    (params : ModelVar → Rat) : ModelVar → Rat :=
  fun v => if v ∈ tvs then upd v (params v) else params v

/-- The `for i in range(num_captions_per_image)` loop of `train_step`: one
gradient-tape + `apply_gradients` sub-step per caption, over
`train_vars nEnc nDec` only.  `upd i` is the optimizer update of sub-step
`i` (it may depend on the gradients of that caption's loss). -/
def train_step (num_captions_per_image nEnc nDec : Nat)
    (upd : Nat → ModelVar → Rat → Rat) (params : ModelVar → Rat) :
    ModelVar → Rat :=
  (List.range num_captions_per_image).foldl
    (fun p i => apply_gradients (upd i) (train_vars nEnc nDec) p) params

end ImageCaption

namespace ImageCaption

/-- Sum of the 0/1 cast of a boolean mask is the number of `true` entries. -/
theorem maskCast_sum (mask : List Bool) :
    (maskCast mask).sum = (mask.count true : Rat) := by
  induction mask with
  | nil => rfl
  | cons b bs ih =>
      simp only [maskCast, List.map_cons, List.sum_cons] at ih ⊢
      cases b
      · simp [List.count_cons, ih]
      · simp [List.count_cons, ih]
        ring

/-- Multiplying by the 0/1 cast zeroes exactly the padding positions. -/
theorem zipWith_mul_maskCast (loss : List Rat) (mask : List Bool) :
    List.zipWith (fun l m => l * m) loss (maskCast mask)
      = List.zipWith (fun l m => if m then l else 0) loss mask := by
  induction loss generalizing mask with
  | nil => simp
  | cons x xs ih =>
      cases mask with
      | nil => simp [maskCast]
      | cons b bs =>
          have h := ih bs
          simp only [maskCast, List.map_cons, List.zipWith_cons_cons] at h ⊢
          cases b <;> simp [h]

/-- `getD` on `List.replicate` inside the bound returns the replicated
element. -/
theorem getD_replicate {α : Type} (a d : α) :
    ∀ (n i : Nat), i < n → (List.replicate n a).getD i d = a := by
  intro n
  induction n with
  | zero => intro i h; omega
  | succ m ih =>
      intro i h
      cases i with
      | zero => rfl
      | succ k => exact ih k (by omega)

/-- `getD` on `(List.range L).map f` inside the bound evaluates `f`. -/
theorem getD_range_map {α : Type} (f : Nat → α) (d : α) (L i : Nat)
    (h : i < L) : ((List.range L).map f).getD i d = f i := by
  simp [List.getD, List.getElem?_map, List.getElem?_range, h]

/-- The fold of per-caption optimizer sub-steps never rewrites a variable
outside `tvs`. -/
theorem foldl_apply_gradients_frame (upd : Nat → ModelVar → Rat → Rat)
    (tvs : List ModelVar) (v : ModelVar) (hv : v ∉ tvs) :
    ∀ (l : List Nat) (params : ModelVar → Rat),
      l.foldl (fun p i => apply_gradients (upd i) tvs p) params v = params v := by
  intro l
  induction l with
  | nil => intro params; rfl
  | cons x xs ih =>
      intro params
      rw [List.foldl_cons, ih]
      simp [apply_gradients, hv]

/-- Bound on the first greedy loop: each remaining-iteration budget `r`
admits at most `r` executed iterations. -/
theorem loop1Go_le (next : Nat → String) :
    ∀ (r i : Nat), loop1Go next i r ≤ r := by
  intro r
  induction r with
  | zero => intro i; simp [loop1Go]
  | succ m ih =>
      intro i
      simp only [loop1Go]
      split
      · omega
      · have := ih (i + 1)
        omega

/-- Bound on the second greedy loop. -/
theorem loop2Go_le (next : Nat → String) :
    ∀ (r k : Nat), loop2Go next k r ≤ r := by
  intro r
  induction r with
  | zero => intro k; simp [loop2Go]
  | succ m ih =>
      intro k
      simp only [loop2Go]
      split
      · omega
      · have := ih (k + 1)
        omega

/-- `list(mapping.values())` — the caption lists handed to `prepare_dataset`
and hence, through `process_input`, to `vectorization`. -/
def dict_values (m : List (String × List String)) : List (List String) :=
  m.map Prod.snd

/-- C1: when the decoder forward pass receives `mask = None`, the read of
`combined_mask` (assigned only inside the `if mask is not None` branch)
raises `UnboundLocalError`; the pass does not succeed, so no per-position
distribution is produced.  The spec's intended behavior (succeed with
causal-only masking) is contradicted by the code, which even calls the
decoder this way in the second `generate_caption`. -/
theorem decoder_call_mask_none_raises (B L : Nat) :
    decoder_call_masks B L none
      = Except.error
          "UnboundLocalError: local variable combined_mask referenced before assignment" :=
  rfl

/-- C2: the causal attention mask is a `(B, L, L)` tensor whose `(b, i, j)`
entry is 1 iff `i ≥ j`, and the `(L, L)` slice is the same for every batch
element. -/
theorem causal_mask_entries_batch_invariant (B L b b' i j : Nat)
    (hb : b < B) (hb' : b' < B) (hi : i < L) (hj : j < L) :
    (get_causal_attention_mask B L).length = B
    ∧ (((get_causal_attention_mask B L).getD b []).getD i []).getD j 0
        = (if i ≥ j then 1 else 0)
    ∧ (get_causal_attention_mask B L).getD b []
        = (get_causal_attention_mask B L).getD b' [] := by
  simp only [get_causal_attention_mask]
  refine ⟨by simp, ?_, ?_⟩
  · rw [getD_replicate _ _ B b hb, getD_range_map _ _ L i hi,
      getD_range_map _ _ L j hj]
  · rw [getD_replicate _ _ B b hb, getD_replicate _ _ B b' hb']

/-- C2 witness at `B = 2, L = 3, b = 1, b' = 0, i = 2, j = 1`. -/
theorem causal_mask_entries_batch_invariant_witness :
    (get_causal_attention_mask 2 3).length = 2
    ∧ (((get_causal_attention_mask 2 3).getD 1 []).getD 2 []).getD 1 0
        = (if 2 ≥ 1 then 1 else 0)
    ∧ (get_causal_attention_mask 2 3).getD 1 []
        = (get_causal_attention_mask 2 3).getD 0 [] :=
  causal_mask_entries_batch_invariant 2 3 1 0 2 1 (by decide) (by decide)
    (by decide) (by decide)

/-- C3: a valid caption line produces a `text_data` entry wrapped with
`<start>`/`<end>`, but the caption stored in the returned image-to-captions
mapping — whose values are what `prepare_dataset` feeds to the vectorizer —
is the bare caption, with neither marker.  The training/validation pipeline
therefore tokenizes unwrapped captions, contrary to the claim (and to the
inference code, which prompts with `<start>` and stops on `<end>`). -/
theorem mapping_captions_lack_markers :
    map_image_caption ["a.jpg#0\tthe dog runs very fast"]
      = Except.ok ([("Flicker8k_Dataset/a.jpg", ["the dog runs very fast"])],
                   ["<start> the dog runs very fast <end>"])
    ∧ dict_values [("Flicker8k_Dataset/a.jpg", ["the dog runs very fast"])]
        = [["the dog runs very fast"]]
    ∧ "<start>".toList.isPrefixOf "the dog runs very fast".toList = false
    ∧ "<end>".toList.isSuffixOf "the dog runs very fast".toList = false :=
  ⟨rfl, rfl, rfl, rfl⟩

/-- C4: with at least one valid position, the masked loss is the sum of the
per-position cross-entropy values zeroed at padding positions, divided by the
number of non-padding positions. -/
theorem calculate_loss_masked_mean
    (lossFn : List Nat → List (List Rat) → List Rat)
    (y_true : List Nat) (y_pred : List (List Rat)) (mask : List Bool)
    (h : 0 < mask.count true) :
    calculate_loss lossFn y_true y_pred mask
      = some ((List.zipWith (fun l m => if m then l else 0)
                (lossFn y_true y_pred) mask).sum
              / (mask.count true : Rat)) := by
  have hne : ((mask.count true : Nat) : Rat) ≠ 0 :=
    Nat.cast_ne_zero.mpr (by omega)
  simp only [calculate_loss, fdiv, maskCast_sum, zipWith_mul_maskCast]
  rw [if_neg hne]

/-- C4 witness: two positions, one valid; the masked mean is `2 / 1 = 2`. -/
theorem calculate_loss_masked_mean_witness :
    0 < ([true, false].count true)
    ∧ calculate_loss (fun _ _ => [2, 3]) [4, 0] [[1], [1]] [true, false]
        = some 2 :=
  ⟨by decide,
   (calculate_loss_masked_mean (fun _ _ => [2, 3]) [4, 0] [[1], [1]]
      [true, false] (by decide)).trans (by norm_num [List.count_cons])⟩

/-- C5: the learning-rate schedule is 0 at step 0, exactly `1e-4` at steps
100 and 200 (warmup 100, target `1e-4`), and in general is
`target * s / warmup` for `s < warmup` and the constant target for
`s ≥ warmup`. -/
theorem LRSchedule_warmup_then_constant :
    LRSchedule_call (1/10000) 100 0 = 0
    ∧ LRSchedule_call (1/10000) 100 100 = 1/10000
    ∧ LRSchedule_call (1/10000) 100 200 = 1/10000
    ∧ (∀ (post : Rat) (w s : Nat), s < w →
        LRSchedule_call post w s = post * s / w)
    ∧ (∀ (post : Rat) (w s : Nat), w ≤ s →
        LRSchedule_call post w s = post) := by
  refine ⟨by norm_num [LRSchedule_call], by norm_num [LRSchedule_call],
    by norm_num [LRSchedule_call], ?_, ?_⟩
  · intro post w s hsw
    have hc : (s : Rat) < (w : Rat) := by exact_mod_cast hsw
    simp [LRSchedule_call, hc, mul_div_assoc]
  · intro post w s hws
    have hc : ¬ (s : Rat) < (w : Rat) := by
      exact_mod_cast not_lt.mpr hws
    simp [LRSchedule_call, hc]

/-- C5 witness: warmup branch at `s = 3 < 10` and constant branch at
`s = 12 ≥ 10`. -/
theorem LRSchedule_warmup_then_constant_witness :
    LRSchedule_call (1/2) 10 3 = (1/2) * ((3 : Nat) : Rat) / ((10 : Nat) : Rat)
    ∧ LRSchedule_call (1/2) 10 12 = 1/2 :=
  ⟨LRSchedule_warmup_then_constant.2.2.2.1 (1/2) 10 3 (by decide),
   LRSchedule_warmup_then_constant.2.2.2.2 (1/2) 10 12 (by decide)⟩

/-- C6 counterexample: a decoder that never emits `<end>` drives the second
`generate_caption` loop through `SEQ_LENGTH = 25` iterations, exceeding the
claimed bound of `sequence_length − 1 = 24`. -/
theorem generate_caption_v2_exceeds_claimed_bound :
    generate_caption_v2_iters (fun _ => "dog") = SEQ_LENGTH
    ∧ sequence_length - 1 < generate_caption_v2_iters (fun _ => "dog") := by
  constructor <;> decide

/-- C6 amended: both greedy loops always terminate; the first
`generate_caption` executes at most `sequence_length − 1` iterations, the
second at most `sequence_length` iterations. -/
theorem greedy_loops_terminate_within_bounds :
    (∀ next : Nat → String,
        generate_caption_iters next ≤ sequence_length - 1)
    ∧ (∀ next : Nat → String,
        generate_caption_v2_iters next ≤ sequence_length) :=
  ⟨fun next => loop1Go_le next max_decoded_sentence_length 0,
   fun next => loop2Go_le next SEQ_LENGTH 0⟩

/-- C7 counterexample: on a fully padded caption the loss and accuracy are
`0/0` — an IEEE NaN (modelled `none`), not a guarded zero contribution. -/
theorem fully_padded_loss_acc_counterexample :
    calculate_loss (fun _ _ => [1]) [1] [[1, 0]] [false] = none
    ∧ calculate_accuracy [1] [[1, 0]] [false] = none :=
  ⟨by simp [calculate_loss, fdiv, maskCast],
   by simp [calculate_accuracy, fdiv, maskCast]⟩

/-- C7 amended: whenever the padding mask has no valid position, both
`calculate_loss` and `calculate_accuracy` divide a zero numerator by a zero
denominator, so the result is undefined (NaN, modelled `none`); there is no
explicit guard and no zero contribution. -/
theorem fully_padded_mask_yields_nan
    (lossFn : List Nat → List (List Rat) → List Rat)
    (y_true : List Nat) (y_pred : List (List Rat)) (mask : List Bool)
    (h : mask.count true = 0) :
    calculate_loss lossFn y_true y_pred mask = none
    ∧ calculate_accuracy y_true y_pred mask = none := by
  have hd : (maskCast mask).sum = 0 := by
    rw [maskCast_sum, h]; simp
  constructor <;> simp [calculate_loss, calculate_accuracy, fdiv, hd]

/-- C7 witness for the amended statement, at a two-position all-padding
mask. -/
theorem fully_padded_mask_yields_nan_witness :
    ([false, false].count true = 0)
    ∧ (calculate_loss (fun _ _ => [1, 1]) [1, 2] [[1], [1]] [false, false]
          = none
       ∧ calculate_accuracy [1, 2] [[1], [1]] [false, false] = none) :=
  ⟨by decide,
   fully_padded_mask_yields_nan (fun _ _ => [1, 1]) [1, 2] [[1], [1]]
     [false, false] (by decide)⟩

/-- C8: with `warmup_steps = 0` the schedule returns the post-warmup target
rate for every step (the condition `step < 0` is never true for a
non-negative step, so the warmup quotient is never returned and no
division-by-zero failure occurs). -/
theorem LRSchedule_zero_warmup_constant (post : Rat) (s : Nat) :
    LRSchedule_call post 0 s = post := by
  have h : ¬ ((s : Rat) < (((0 : Nat) : Nat) : Rat)) := by
    rw [Nat.cast_zero]
    exact not_lt.mpr (Nat.cast_nonneg s)
  simp only [LRSchedule_call]
  rw [if_neg h]

/-- C9: a training step's optimizer updates touch exactly
`encoder.trainable_variables + decoder.trainable_variables`; the frozen CNN
feature extractor's parameters are outside that list and are unchanged after
all `num_captions_per_image` gradient sub-steps, whatever the optimizer's
update rule does. -/
theorem train_step_preserves_cnn_params (K nEnc nDec : Nat)
    (upd : Nat → ModelVar → Rat → Rat) (params : ModelVar → Rat) (i : Nat) :
    cnn_model_trainable = false
    ∧ ModelVar.cnn i ∉ train_vars nEnc nDec
    ∧ train_step K nEnc nDec upd params (ModelVar.cnn i)
        = params (ModelVar.cnn i) := by
  have hmem : ModelVar.cnn i ∉ train_vars nEnc nDec := by
    simp [train_vars]
  exact ⟨rfl, hmem,
    foldl_apply_gradients_frame upd (train_vars nEnc nDec) (ModelVar.cnn i)
      hmem (List.range K) params⟩

/-- C10: caption file with a valid-length caption for `a.jpg` on the first
line and a too-short caption for the same image on the second: the image is
deleted from the returned mapping, yet `text_data` — the list the tokenizer
is adapted on — still contains the wrapped text of its valid caption. -/
theorem skipped_image_caption_remains_in_text_data :
    map_image_caption
        ["a.jpg#0\tthe dog runs very fast", "a.jpg#1\ttoo short here"]
      = Except.ok ([], ["<start> the dog runs very fast <end>"]) :=
  rfl

end ImageCaption
